import Mathlib

/-!
Verification development for the CamPass camera-sharing gateway
(`custom_components/campass`).  The Python source is shallowly embedded:
dictionaries become structures or association lists, HTTP responses become an
inductive type, wall-clock time is an integer number of seconds, and the JWT
library (PyJWT, HS256) is modelled symbolically: a token records its payload
and the key it was signed with, and decoding succeeds exactly when the
verification key equals the signing key and the token is not expired (PyJWT
treats a token as expired when `exp <= now`, with zero leeway by default).
-/

namespace Campass

/-- Wall-clock time, in seconds since the epoch. -/
abbrev Time := Int

/-- Payload of a CamPass JWT: `{"slug": ...}` plus an optional `"exp"` claim
(`views.py`, `create_jwt_token`). -/
structure JwtPayload where
  slug : String
  exp : Option Time
deriving DecidableEq, Repr

/-- Symbolic model of an HS256 JWT: the serialized token determines its payload
and is unforgeable, so we record the payload and the signing key directly. -/
structure JwtToken where
  payload : JwtPayload
  key : String
deriving DecidableEq, Repr

/-- `jwt.encode(payload, secret, algorithm="HS256")`. -/
def jwtEncode (payload : JwtPayload) (secret : String) : JwtToken :=
  ⟨payload, secret⟩

/-- `jwt.decode(token, secret, algorithms=["HS256"])`, evaluated at wall-clock
time `now`.  `none` models the `InvalidTokenError` / `ExpiredSignatureError`
exceptions; PyJWT raises `ExpiredSignatureError` when `exp <= now`. -/
def jwtDecode (token : JwtToken) (secret : String) (now : Time) : Option JwtPayload :=
  if token.key = secret then
    match token.payload.exp with
    | none => some token.payload
    | some e => if e ≤ now then none else some token.payload
  else
    none

/-- `create_jwt_token(slug, secret, duration_seconds)` (`views.py` lines
40-45), issued at wall-clock time `now`: payload `{"slug": slug}` plus
`exp = now + duration_seconds` unless the duration is `None`. -/
def create_jwt_token (slug secret : String) (now : Time)
    (duration_seconds : Option Int) : JwtToken :=
  jwtEncode { slug := slug, exp := duration_seconds.map (fun d => now + d) } secret

/-- `verify_jwt_token(token, slug, secret)` (`views.py` lines 48-54), evaluated
at wall-clock time `now`: decode with `secret`, then cross-check the payload
slug; any decode exception yields `False`. -/
def verify_jwt_token (token : JwtToken) (slug secret : String) (now : Time) : Bool :=
  match jwtDecode token secret now with
  | some payload => payload.slug == slug
  | none => false

/-- The fields of `entry.data` that the views read. A `none` field models an
absent dictionary key (`cameras` defaults to `[]` via `.get("cameras", [])`,
so an absent key and an empty list coincide). -/
structure EntryData where
  slug : String
  name : String
  auth_type : Option String
  passcode : Option String
  pin : Option String
  cameras : List String
  session_duration : Option String
deriving DecidableEq, Repr

/-- A Home Assistant config entry for the `campass` domain. -/
structure ConfigEntry where
  entry_id : String
  data : EntryData
deriving DecidableEq, Repr

/-- A Home Assistant state object: its `state` string and the
`friendly_name` attribute the status view reads. -/
structure HAState where
  state : String
  friendly_name : Option String
deriving DecidableEq, Repr

/-- The slice of the `hass` object the views consult: the domain's config
entries, `hass.data[DOMAIN]` (per `entry_id`, the per-entry dict projected to
its optional `"jwt_secret"` key; a pair `(id, none)` is a per-entry dict
without a secret, an absent pair is an absent dict), and `hass.states`. -/
structure Hass where
  entries : List ConfigEntry
  domainData : List (String × Option String)
  states : List (String × HAState)
deriving DecidableEq, Repr

/-- An inbound HTTP request: cookies (cookie name to JWT), the parsed JSON
body when present and parseable (fields projected to string values), and
`request.secure`. -/
structure Request where
  cookies : List (String × JwtToken)
  jsonBody : Option (List (String × String))
  secure : Bool
deriving DecidableEq, Repr

/-- The cookie set by a successful authentication (`views.py` lines 183-191). -/
structure CookieSpec where
  name : String
  value : JwtToken
  max_age : Int
  httponly : Bool
  samesite : String
  secure : Bool
deriving DecidableEq, Repr

/-- HTTP responses the embedded handlers produce.  `jsonError s m` is
`web.json_response({"error": m}, status=s)`; `text s b` is
`web.Response(text=b, status=s)`; `jsonSuccessWithCookie` is the auth
success response; `statusBody` is the status view's JSON body, each camera
rendered as an association list of its JSON object's keys. -/
inductive Response where
  | jsonError (status : Nat) (message : String)
  | text (status : Nat) (body : String)
  | jsonSuccessWithCookie (cookie : CookieSpec)
  | statusBody (available : Bool) (cameras : List (List (String × String)))
deriving DecidableEq, Repr

/-- The HTTP status code of a response. -/
def Response.statusCode : Response → Nat
  | .jsonError s _ => s
  | .text s _ => s
  | .jsonSuccessWithCookie _ => 200
  | .statusBody _ _ => 200

/-- The `cameras` array of a status-view response body (empty for any other
response shape). -/
def Response.camerasOf : Response → List (List (String × String))
  | .statusBody _ cams => cams
  | _ => []

/-- `SESSION_DURATIONS` from `const.py`: duration key to (label, seconds),
`none` seconds for "never". -/
def SESSION_DURATIONS : List (String × (String × Option Int)) :=
  [("1h", ("1 hour", some 3600)),
   ("24h", ("24 hours", some 86400)),
   ("7d", ("7 days", some 604800)),
   ("30d", ("30 days", some 2592000)),
   ("1y", ("1 year", some 31536000)),
   ("never", ("Never expires", none))]

/-- `get_entry_by_slug(hass, slug)` (`views.py` lines 21-26): first config
entry whose data slug equals `slug`. -/
def get_entry_by_slug (hass : Hass) (slug : String) : Option ConfigEntry :=
  hass.entries.find? (fun entry => entry.data.slug == slug)

/-- `get_switch_entity_id(entry)` (`views.py` lines 29-31). -/
def get_switch_entity_id (entry : ConfigEntry) : String :=
  "switch.campass_" ++ entry.data.slug

/-- `is_sharing_enabled(hass, entry)` (`views.py` lines 34-37): the switch
state exists and is `"on"`. -/
def is_sharing_enabled (hass : Hass) (entry : ConfigEntry) : Bool :=
  match hass.states.lookup (get_switch_entity_id entry) with
  | some st => st.state == "on"
  | none => false

/-- The share's signing secret as the views read it:
`hass.data[DOMAIN][entry.entry_id]["jwt_secret"]`, `none` when the per-entry
dict or the key is absent. -/
def entrySecret (hass : Hass) (entry : ConfigEntry) : Option String :=
  (hass.domainData.lookup entry.entry_id).bind id

/-- `_get_entry_and_verify(hass, slug)` (`views.py` lines 57-67): 404 when the
slug resolves to no entry, 500 when the per-entry data or its `"jwt_secret"`
is missing, otherwise the entry. -/
def get_entry_and_verify (hass : Hass) (slug : String) : Except Response ConfigEntry :=
  match get_entry_by_slug hass slug with
  | none => .error (.jsonError 404 "Share not found")
  | some entry =>
    match hass.domainData.lookup entry.entry_id with
    | none => .error (.jsonError 500 "Not configured")
    | some none => .error (.jsonError 500 "Not configured")
    | some (some _) => .ok entry

/-- `_verify_cookie(request, slug, entry, hass)` (`views.py` lines 70-76).
Callers only invoke it after `_get_entry_and_verify` succeeded, so the secret
is present; an absent secret is mapped to `false` to keep the function total. -/
def verify_cookie (request : Request) (slug : String) (entry : ConfigEntry)
    (hass : Hass) (now : Time) : Bool :=
  match request.cookies.lookup ("campass_" ++ slug) with
  | none => false
  | some token =>
    match entrySecret hass entry with
    | some secret => verify_jwt_token token slug secret now
    | none => false

/-- `CamPassAuthView.post` (`views.py` lines 161-194), evaluated at wall-clock
time `now`. -/
def CamPassAuthView_post (hass : Hass) (request : Request) (slug : String)
    (now : Time) : Response :=
  match get_entry_and_verify hass slug with
  | .error err => err
  | .ok entry =>
    match request.jsonBody with
    | none => .jsonError 400 "Invalid request"
    | some data =>
      let pin := (data.lookup "pin").getD ""
      let stored_passcode := entry.data.passcode.getD (entry.data.pin.getD "")
      if pin == stored_passcode then
        match entrySecret hass entry with
        | none => .jsonError 500 "Not configured"
        | some secret =>
          let duration_key := entry.data.session_duration.getD "24h"
          let duration_seconds :=
            ((SESSION_DURATIONS.lookup duration_key).getD ("24 hours", some 86400)).2
          let token := create_jwt_token slug secret now duration_seconds
          let max_age := duration_seconds.getD 315360000
          .jsonSuccessWithCookie
            { name := "campass_" ++ slug, value := token, max_age := max_age,
              httponly := true, samesite := "Lax", secure := request.secure }
      else
        .jsonError 401 "Invalid PIN"

/-- `CamPassStatusView.get` (`views.py` lines 204-228): gate, cookie check,
then `{available, cameras}` where each allowed camera with a state object is
rendered as `{"entity_id": camera_id, "name": friendly_name or camera_id}`. -/
def CamPassStatusView_get (hass : Hass) (request : Request) (slug : String)
    (now : Time) : Response :=
  match get_entry_and_verify hass slug with
  | .error err => err
  | .ok entry =>
    if verify_cookie request slug entry hass now then
      let available := is_sharing_enabled hass entry
      let cameras := entry.data.cameras.filterMap (fun camera_id =>
        match hass.states.lookup camera_id with
        | some st => some [("entity_id", camera_id),
                           ("name", st.friendly_name.getD camera_id)]
        | none => none)
      .statusBody available cameras
    else
      .jsonError 401 "Unauthorized"

/-- The access-gate prefix of `CamPassStreamView.get` (`views.py` lines
340-354): `some r` means the request is denied with response `r` before any
frame is streamed; `none` means control reaches the frame-streaming branch.
Note the view maps any `_get_entry_and_verify` error — the 500 case included —
to a plain-text 404 `"Share not found"`. -/
def CamPassStreamView_gate (hass : Hass) (request : Request)
    (slug camera_id : String) (now : Time) : Option Response :=
  match get_entry_and_verify hass slug with
  | .error _ => some (.text 404 "Share not found")
  | .ok entry =>
    if ¬ verify_cookie request slug entry hass now then
      some (.text 401 "Unauthorized")
    else if ¬ is_sharing_enabled hass entry then
      some (.text 403 "Sharing is disabled")
    else if ¬ entry.data.cameras.contains camera_id then
      some (.text 403 "Camera not allowed")
    else
      none

/-- Per-iteration outcome of the snapshot-polling loop in
`CamPassStreamView.get` (`views.py` lines 369-384).  `frame c` is a successful
`async_get_image` + frame write; `snapshotError` is any `Exception` raised in
the inner `try` (snapshot fetch or frame write), which the handler logs and
`break`s on; `connectionReset` and `cancelled` are the
`ConnectionResetError`/`ConnectionError` and `asyncio.CancelledError` caught
by the outer handler. -/
inductive PollEvent where
  | frame (content : String)
  | snapshotError
  | connectionReset
  | cancelled
deriving DecidableEq, Repr

/-- A write performed on the multipart stream response: one boundary-delimited
JPEG part, or the stream terminator written by `response.write_eof()`. -/
inductive StreamWrite where
  | framePart (content : String)
  | eof
deriving DecidableEq, Repr

/-- The snapshot-polling loop of `CamPassStreamView.get` with its
`try`/`except`/`finally` structure, as a function of the per-iteration event
script: `some writes` means the handler returned after performing `writes`
(the `finally` block appends the terminator on that exit path); `none` means
the loop was still running when the script ran out. -/
def CamPassStreamView_poll : List PollEvent → Option (List StreamWrite)
  | [] => none
  | .frame c :: rest => (CamPassStreamView_poll rest).map (fun ws => .framePart c :: ws)
  | .snapshotError :: _ => some [.eof]
  | .connectionReset :: _ => some [.eof]
  | .cancelled :: _ => some [.eof]

/-- `hass.data[DOMAIN]` as mutated by entry setup and unload: an association
list from `entry_id` to the per-entry dict's optional `"jwt_secret"`. -/
abbrev DomainStore := List (String × Option String)

/-- Update (or append) the value at a key of an association list. -/
def updateAssoc (store : DomainStore) (k : String) (v : Option String) :
    DomainStore :=
  match store with
  | [] => [(k, v)]
  | (k', v') :: rest =>
    if k' == k then (k, v) :: rest else (k', v') :: updateAssoc rest k v

/-- The `hass.data[DOMAIN]` effect of `async_setup_entry` (`__init__.py` lines
34-36): `setdefault(entry_id, {})`, then store a freshly generated secret
(`fresh`, modelling `secrets.token_urlsafe(32)`) only when `"jwt_secret"` is
not already present. -/
def async_setup_entry_data (store : DomainStore) (entry_id fresh : String) :
    DomainStore :=
  match store.lookup entry_id with
  | some (some _) => store
  | _ => updateAssoc store entry_id (some fresh)

/-- The `hass.data[DOMAIN]` effect of `async_unload_entry` (`__init__.py`
lines 54-61): when the platforms unloaded successfully, `pop(entry_id, None)`
removes the per-entry dict — the signing secret with it. -/
def async_unload_entry_data (store : DomainStore) (entry_id : String)
    (unload_ok : Bool) : DomainStore :=
  if unload_ok then store.filter (fun p => p.1 != entry_id) else store

/-- URL pattern of `CamPassRedirectView` (`views.py` line 102). -/
def CamPassRedirectView_url : String := "/campass/{slug}"

/-- URL pattern of `CamPassPinView` (`views.py` line 114). -/
def CamPassPinView_url : String := "/campass/{slug}/"

/-- URL pattern of `CamPassViewerView` (`views.py` line 134). -/
def CamPassViewerView_url : String := "/campass/{slug}/viewer"

/-- URL pattern of `CamPassAuthView` (`views.py` line 158). -/
def CamPassAuthView_url : String := "/campass/{slug}/api/auth"

/-- URL pattern of `CamPassStatusView` (`views.py` line 201). -/
def CamPassStatusView_url : String := "/campass/{slug}/api/status"

/-- URL pattern of `CamPassEventsView` (`views.py` line 235). -/
def CamPassEventsView_url : String := "/campass/{slug}/api/events"

/-- URL pattern of `CamPassStreamInfoView` (`views.py` line 294). -/
def CamPassStreamInfoView_url : String := "/campass/{slug}/api/stream-info/{camera_id:.+}"

/-- URL pattern of `CamPassStreamView` (`views.py` line 337). -/
def CamPassStreamView_url : String := "/campass/{slug}/api/stream/{camera_id:.+}"

/-- The URL patterns of the views `async_setup_entry` passes to
`hass.http.register_view` (`__init__.py` lines 40-44): exactly
`CamPassPinView`, `CamPassViewerView`, `CamPassAuthView`, `CamPassStatusView`
and `CamPassStreamView`. -/
def registeredViewUrls : List String :=
  [CamPassPinView_url, CamPassViewerView_url, CamPassAuthView_url,
   CamPassStatusView_url, CamPassStreamView_url]

/-- The eight paths of the spec's HTTP surface table, as URL patterns of the
view classes that implement them. -/
def httpSurfaceUrls : List String :=
  [CamPassRedirectView_url, CamPassPinView_url, CamPassViewerView_url,
   CamPassAuthView_url, CamPassStatusView_url, CamPassEventsView_url,
   CamPassStreamInfoView_url, CamPassStreamView_url]

/-- Test fixture: a configured share with passcode `"4821"`, two allowed
cameras (one of which, `camera.ghost`, has no state object), switch on. -/
def entryGarage : ConfigEntry :=
  { entry_id := "entry-garage",
    data := { slug := "garage", name := "Garage", auth_type := some "pin4",
              passcode := some "4821", pin := none,
              cameras := ["camera.garage", "camera.ghost"],
              session_duration := some "24h" } }

/-- Test fixture: a share whose stored data has neither `"passcode"` nor
`"pin"`. -/
def entryBare : ConfigEntry :=
  { entry_id := "entry-bare",
    data := { slug := "bare", name := "Bare", auth_type := none,
              passcode := none, pin := none, cameras := [],
              session_duration := none } }

/-- Test fixture: a hass with both shares set up (secrets `"kg"`, `"kb"`),
garage switch on, and a state object only for `camera.garage`. -/
def hassMain : Hass :=
  { entries := [entryGarage, entryBare],
    domainData := [("entry-garage", some "kg"), ("entry-bare", some "kb")],
    states := [("switch.campass_garage", { state := "on", friendly_name := none }),
               ("camera.garage", { state := "idle", friendly_name := some "Garage Cam" })] }

/-- Test fixture: the garage share exists but `hass.data[DOMAIN]` holds no
per-entry data — no signing secret provisioned. -/
def hassNoSecret : Hass :=
  { entries := [entryGarage], domainData := [], states := [] }

/-- Test fixture: a request with no cookies and no body. -/
def reqEmpty : Request := { cookies := [], jsonBody := none, secure := false }

/-- Test fixture: an auth request submitting pin `"4821"`. -/
def reqAuthGarage : Request :=
  { cookies := [], jsonBody := some [("pin", "4821")], secure := false }

/-- Test fixture: an auth request whose JSON body omits the `pin` field. -/
def reqAuthNoPin : Request :=
  { cookies := [], jsonBody := some [], secure := false }

/-- Test fixture: an auth request submitting the wrong pin `"0000"`. -/
def reqAuthWrong : Request :=
  { cookies := [], jsonBody := some [("pin", "0000")], secure := false }

/-- Test fixture: a credential issued for the garage share at time 0. -/
def garageToken : JwtToken := create_jwt_token "garage" "kg" 0 (some 86400)

/-- Test fixture: a request presenting the garage credential cookie. -/
def reqGarageCookie : Request :=
  { cookies := [("campass_garage", garageToken)], jsonBody := none, secure := false }

/-- C1: an issued credential never verifies under a different slug, whatever
the verifying secret (slug cross-check alone rejects it when secrets
coincide). -/
theorem issued_token_rejected_for_other_slug (s s' sec sec' : String)
    (issue now : Time) (ttl : Option Int) (h : s ≠ s') :
    verify_jwt_token (create_jwt_token s sec issue ttl) s' sec' now = false := by
  unfold verify_jwt_token create_jwt_token jwtEncode jwtDecode
  by_cases hk : sec = sec'
  · subst hk
    cases ttl with
    | none => simp [beq_eq_false_iff_ne, h]
    | some d =>
      simp only [Option.map_some]
      by_cases he : issue + d ≤ now <;> simp [he, beq_eq_false_iff_ne, h]
  · simp [hk]

/-- Witness for C1 at concrete inputs, with coinciding secrets. -/
theorem issued_token_rejected_for_other_slug_witness :
    verify_jwt_token (create_jwt_token "garage" "k0" 0 (some 86400)) "office" "k0" 5
      = false :=
  issued_token_rejected_for_other_slug "garage" "office" "k0" "k0" 0 5
    (some 86400) (by decide)

/-- C2: a credential issued for `(slug, secret)` verifies at any time strictly
before issuance + ttl (and at all times when the duration is `None`, i.e.
"never"), and fails at any time strictly after issuance + ttl; expiry is an
exact wall-clock comparison with no leeway. -/
theorem issued_token_verifies_until_expiry (slug secret : String) (issue : Time) :
    (∀ ttl : Int, ∀ t : Time, t < issue + ttl →
      verify_jwt_token (create_jwt_token slug secret issue (some ttl)) slug secret t
        = true) ∧
    (∀ t : Time,
      verify_jwt_token (create_jwt_token slug secret issue none) slug secret t
        = true) ∧
    (∀ ttl : Int, ∀ t : Time, issue + ttl < t →
      verify_jwt_token (create_jwt_token slug secret issue (some ttl)) slug secret t
        = false) := by
  refine ⟨fun ttl t ht => ?_, fun t => ?_, fun ttl t ht => ?_⟩
  · unfold verify_jwt_token create_jwt_token jwtEncode jwtDecode
    simp [not_le.mpr ht]
  · unfold verify_jwt_token create_jwt_token jwtEncode jwtDecode
    simp
  · unfold verify_jwt_token create_jwt_token jwtEncode jwtDecode
    simp [le_of_lt ht]

/-- Witness for C2: validity before expiry, with a "never" duration, and
invalidity after expiry, at concrete inputs. -/
theorem issued_token_verifies_until_expiry_witness :
    verify_jwt_token (create_jwt_token "garage" "k0" 100 (some 3600)) "garage" "k0" 3699
      = true ∧
    verify_jwt_token (create_jwt_token "garage" "k0" 100 none) "garage" "k0" 999999
      = true ∧
    verify_jwt_token (create_jwt_token "garage" "k0" 100 (some 3600)) "garage" "k0" 3701
      = false :=
  ⟨(issued_token_verifies_until_expiry "garage" "k0" 100).1 3600 3699 (by decide),
   (issued_token_verifies_until_expiry "garage" "k0" 100).2.1 999999,
   (issued_token_verifies_until_expiry "garage" "k0" 100).2.2 3600 3701 (by decide)⟩

/-- When the slug resolves and the secret is present, the gate admits the
entry. -/
theorem get_entry_and_verify_ok_of (hass : Hass) (slug : String)
    (entry : ConfigEntry) (secret : String)
    (h1 : get_entry_by_slug hass slug = some entry)
    (h2 : entrySecret hass entry = some secret) :
    get_entry_and_verify hass slug = .ok entry := by
  unfold entrySecret at h2
  unfold get_entry_and_verify
  cases hl : hass.domainData.lookup entry.entry_id with
  | none => rw [hl] at h2; exact Option.noConfusion h2
  | some o =>
    cases o with
    | none => rw [hl] at h2; exact Option.noConfusion h2
    | some s => simp only [h1, hl]

/-- When the slug resolves but no signing secret is provisioned, the gate
reports the 500 misconfiguration error. -/
theorem get_entry_and_verify_err_of_no_secret (hass : Hass) (slug : String)
    (entry : ConfigEntry)
    (h1 : get_entry_by_slug hass slug = some entry)
    (h2 : entrySecret hass entry = none) :
    get_entry_and_verify hass slug = .error (.jsonError 500 "Not configured") := by
  unfold entrySecret at h2
  unfold get_entry_and_verify
  cases hl : hass.domainData.lookup entry.entry_id with
  | none => simp only [h1, hl]
  | some o =>
    cases o with
    | none => simp only [h1, hl]
    | some s => rw [hl] at h2; exact Option.noConfusion h2

/-- If the gate admits an entry, the slug resolved to it and its secret is
present. -/
theorem get_entry_and_verify_ok_inv (hass : Hass) (slug : String)
    (e : ConfigEntry) (h : get_entry_and_verify hass slug = .ok e) :
    get_entry_by_slug hass slug = some e ∧ ∃ s, entrySecret hass e = some s := by
  unfold get_entry_and_verify at h
  split at h
  next => exact Except.noConfusion h
  next entry heq =>
    split at h
    next => exact Except.noConfusion h
    next => exact Except.noConfusion h
    next s heq2 =>
      injection h with h
      subst h
      exact ⟨heq, s, by simp [entrySecret, heq2]⟩

/-- When the submitted pin equals the stored passcode, the auth view returns
success and sets the share-scoped credential cookie. -/
theorem auth_post_of_match (hass : Hass) (request : Request) (slug : String)
    (now : Time) (entry : ConfigEntry) (secret : String)
    (data : List (String × String))
    (h1 : get_entry_by_slug hass slug = some entry)
    (h2 : entrySecret hass entry = some secret)
    (h3 : request.jsonBody = some data)
    (hm : (data.lookup "pin").getD ""
            = entry.data.passcode.getD (entry.data.pin.getD "")) :
    CamPassAuthView_post hass request slug now
      = .jsonSuccessWithCookie
          { name := "campass_" ++ slug,
            value := create_jwt_token slug secret now
              ((SESSION_DURATIONS.lookup (entry.data.session_duration.getD "24h")).getD
                ("24 hours", some 86400)).2,
            max_age :=
              (((SESSION_DURATIONS.lookup (entry.data.session_duration.getD "24h")).getD
                ("24 hours", some 86400)).2).getD 315360000,
            httponly := true, samesite := "Lax", secure := request.secure } := by
  unfold CamPassAuthView_post
  rw [get_entry_and_verify_ok_of hass slug entry secret h1 h2, h3]
  simp [hm, h2]

/-- When the submitted pin differs from the stored passcode, the auth view
returns the 401 error with no cookie. -/
theorem auth_post_of_mismatch (hass : Hass) (request : Request) (slug : String)
    (now : Time) (entry : ConfigEntry) (secret : String)
    (data : List (String × String))
    (h1 : get_entry_by_slug hass slug = some entry)
    (h2 : entrySecret hass entry = some secret)
    (h3 : request.jsonBody = some data)
    (hm : (data.lookup "pin").getD ""
            ≠ entry.data.passcode.getD (entry.data.pin.getD "")) :
    CamPassAuthView_post hass request slug now = .jsonError 401 "Invalid PIN" := by
  unfold CamPassAuthView_post
  rw [get_entry_and_verify_ok_of hass slug entry secret h1 h2, h3]
  simp [hm]

/-- C3: the stream endpoint is fail-closed — when the share's toggle state is
not determinable as "on", or no signing secret is provisioned, or the camera
is not among the share's configured cameras, the gate denies the request and
the frame-streaming branch is unreachable. -/
theorem stream_gate_fail_closed (hass : Hass) (request : Request)
    (slug camera_id : String) (now : Time) (entry : ConfigEntry)
    (h1 : get_entry_by_slug hass slug = some entry)
    (h : is_sharing_enabled hass entry = false ∨ entrySecret hass entry = none ∨
         camera_id ∉ entry.data.cameras) :
    (CamPassStreamView_gate hass request slug camera_id now).isSome = true := by
  unfold CamPassStreamView_gate
  cases hok : get_entry_and_verify hass slug with
  | error e => simp
  | ok e =>
    obtain ⟨hf, s, hs⟩ := get_entry_and_verify_ok_inv hass slug e hok
    have he : e = entry := by
      have := h1.symm.trans hf
      exact (Option.some.injEq _ _ ▸ this).symm
    subst he
    by_cases hc : verify_cookie request slug e hass now
    · by_cases hen : is_sharing_enabled hass e
      · by_cases hcam : e.data.cameras.contains camera_id
        · exfalso
          rcases h with h | h | h
          · exact Bool.false_ne_true (h ▸ hen)
          · exact Option.noConfusion (h ▸ hs)
          · exact h (List.elem_iff.mp hcam)
        · simp [hc, hen, hcam]
          exact fun hmem => hcam (List.elem_iff.mpr hmem)
      · simp [hc, hen]
    · simp [hc]

/-- Witness for C3: a valid viewer of the garage share requesting a camera
outside the share's camera list is denied. -/
theorem stream_gate_fail_closed_witness :
    (CamPassStreamView_gate hassMain reqGarageCookie "garage" "camera.other" 1).isSome
      = true :=
  stream_gate_fail_closed hassMain reqGarageCookie "garage" "camera.other" 1
    entryGarage rfl (Or.inr (Or.inr (by decide)))

/-- C4: on an existing, configured share with a parseable body, the auth
endpoint succeeds with the `campass_{slug}` cookie exactly when the submitted
passcode equals the stored one verbatim, and any mismatch yields the 401
error response with no cookie. -/
theorem auth_success_iff_passcode_match (hass : Hass) (request : Request)
    (slug : String) (now : Time) (entry : ConfigEntry) (secret : String)
    (data : List (String × String))
    (h1 : get_entry_by_slug hass slug = some entry)
    (h2 : entrySecret hass entry = some secret)
    (h3 : request.jsonBody = some data) :
    ((data.lookup "pin").getD "" = entry.data.passcode.getD (entry.data.pin.getD "")
      ↔ ∃ c, CamPassAuthView_post hass request slug now = .jsonSuccessWithCookie c ∧
          c.name = "campass_" ++ slug) ∧
    ((data.lookup "pin").getD "" ≠ entry.data.passcode.getD (entry.data.pin.getD "")
      → CamPassAuthView_post hass request slug now = .jsonError 401 "Invalid PIN") := by
  constructor
  · constructor
    · intro hm
      exact ⟨_, auth_post_of_match hass request slug now entry secret data h1 h2 h3 hm,
        rfl⟩
    · rintro ⟨c, hc, -⟩
      by_contra hm
      rw [auth_post_of_mismatch hass request slug now entry secret data h1 h2 h3 hm]
        at hc
      cases hc
  · exact auth_post_of_mismatch hass request slug now entry secret data h1 h2 h3

/-- Witness for C4: the garage share rejects a wrong-pin submission with the
401 error. -/
theorem auth_success_iff_passcode_match_witness :
    CamPassAuthView_post hassMain reqAuthWrong "garage" 0
      = .jsonError 401 "Invalid PIN" :=
  (auth_success_iff_passcode_match hassMain reqAuthWrong "garage" 0 entryGarage "kg"
    [("pin", "0000")] rfl rfl rfl).2 (by decide)

/-- C10: on a share whose stored data has neither a passcode nor a pin field,
a body that omits the pin (or submits the empty string) authenticates
successfully and a credential cookie is issued. -/
theorem auth_empty_passcode_fallback_success (hass : Hass) (request : Request)
    (slug : String) (now : Time) (entry : ConfigEntry) (secret : String)
    (data : List (String × String))
    (h1 : get_entry_by_slug hass slug = some entry)
    (h2 : entrySecret hass entry = some secret)
    (h3 : request.jsonBody = some data)
    (h4 : entry.data.passcode = none) (h5 : entry.data.pin = none)
    (h6 : data.lookup "pin" = none ∨ data.lookup "pin" = some "") :
    CamPassAuthView_post hass request slug now
      = .jsonSuccessWithCookie
          { name := "campass_" ++ slug,
            value := create_jwt_token slug secret now
              ((SESSION_DURATIONS.lookup (entry.data.session_duration.getD "24h")).getD
                ("24 hours", some 86400)).2,
            max_age :=
              (((SESSION_DURATIONS.lookup (entry.data.session_duration.getD "24h")).getD
                ("24 hours", some 86400)).2).getD 315360000,
            httponly := true, samesite := "Lax", secure := request.secure } := by
  have hm : (data.lookup "pin").getD ""
      = entry.data.passcode.getD (entry.data.pin.getD "") := by
    rcases h6 with h | h <;> simp [h, h4, h5]
  exact auth_post_of_match hass request slug now entry secret data h1 h2 h3 hm

/-- Witness for C10: the bare share accepts a body that omits the pin field
and issues a credential cookie. -/
theorem auth_empty_passcode_fallback_success_witness :
    CamPassAuthView_post hassMain reqAuthNoPin "bare" 0
      = .jsonSuccessWithCookie
          { name := "campass_" ++ "bare",
            value := create_jwt_token "bare" "kb" 0 (some 86400),
            max_age := 86400, httponly := true, samesite := "Lax",
            secure := false } :=
  auth_empty_passcode_fallback_success hassMain reqAuthNoPin "bare" 0 entryBare "kb"
    [] rfl rfl rfl rfl rfl (Or.inl rfl)

/-- C5: three paths of the spec's HTTP surface have no registered handler —
`async_setup_entry` never registers `CamPassRedirectView`, `CamPassEventsView`
or `CamPassStreamInfoView`, so requests to `/{slug}`, `/{slug}/api/events` and
`/{slug}/api/stream-info/{camera_id}` reach no handler. -/
theorem surface_views_not_all_registered :
    httpSurfaceUrls.filter (fun u => !(registeredViewUrls.contains u))
      = [CamPassRedirectView_url, CamPassEventsView_url, CamPassStreamInfoView_url] := by
  decide

/-- C6 (amended): on an existing share with no signing secret provisioned, the
status and auth endpoints return the 500 "Not configured" misconfiguration
error, but the stream endpoint collapses that error to a plain-text 404
"Share not found". -/
theorem missing_secret_misconfigured_amended (hass : Hass) (request : Request)
    (slug camera_id : String) (now : Time) (entry : ConfigEntry)
    (h1 : get_entry_by_slug hass slug = some entry)
    (h2 : entrySecret hass entry = none) :
    CamPassStatusView_get hass request slug now = .jsonError 500 "Not configured" ∧
    CamPassAuthView_post hass request slug now = .jsonError 500 "Not configured" ∧
    CamPassStreamView_gate hass request slug camera_id now
      = some (.text 404 "Share not found") := by
  have herr := get_entry_and_verify_err_of_no_secret hass slug entry h1 h2
  refine ⟨?_, ?_, ?_⟩
  · unfold CamPassStatusView_get
    rw [herr]
  · unfold CamPassAuthView_post
    rw [herr]
  · unfold CamPassStreamView_gate
    rw [herr]

/-- Witness for C6 (amended) on the secretless garage share. -/
theorem missing_secret_misconfigured_amended_witness :
    CamPassStatusView_get hassNoSecret reqEmpty "garage" 0
      = .jsonError 500 "Not configured" ∧
    CamPassAuthView_post hassNoSecret reqEmpty "garage" 0
      = .jsonError 500 "Not configured" ∧
    CamPassStreamView_gate hassNoSecret reqEmpty "garage" "camera.garage" 0
      = some (.text 404 "Share not found") :=
  missing_secret_misconfigured_amended hassNoSecret reqEmpty "garage"
    "camera.garage" 0 entryGarage rfl rfl

/-- C6 counterexample: with the garage share present but no secret
provisioned, the stream endpoint answers 404 "Share not found" — not the 500
misconfiguration outcome the claim requires. -/
theorem stream_missing_secret_reported_not_found :
    CamPassStreamView_gate hassNoSecret reqEmpty "garage" "camera.garage" 0
      = some (.text 404 "Share not found") ∧
    (Response.text 404 "Share not found").statusCode = 404 ∧
    ((CamPassStreamView_gate hassNoSecret reqEmpty "garage" "camera.garage" 0).map
        Response.statusCode == some 500) = false := by
  refine ⟨?_, rfl, ?_⟩ <;> decide

/-- C7 (amended): for a valid-cookie request on a configured share, the status
body is `{available, cameras}` with `available` the share's toggle state, and
`cameras` holding exactly the allowed cameras that currently have a state
object, each as `{"entity_id": camera_id, "name": friendly_name or
camera_id}`. -/
theorem status_view_body_amended (hass : Hass) (request : Request)
    (slug : String) (now : Time) (entry : ConfigEntry) (secret : String)
    (h1 : get_entry_by_slug hass slug = some entry)
    (h2 : entrySecret hass entry = some secret)
    (h3 : verify_cookie request slug entry hass now = true) :
    ∃ cams,
      CamPassStatusView_get hass request slug now
        = .statusBody (is_sharing_enabled hass entry) cams ∧
      (∀ c ∈ cams, ∃ cid, cid ∈ entry.data.cameras ∧ ∃ st,
        hass.states.lookup cid = some st ∧
        c = [("entity_id", cid), ("name", st.friendly_name.getD cid)]) ∧
      (∀ cid ∈ entry.data.cameras, ∀ st, hass.states.lookup cid = some st →
        [("entity_id", cid), ("name", st.friendly_name.getD cid)] ∈ cams) := by
  refine ⟨entry.data.cameras.filterMap (fun camera_id =>
      match hass.states.lookup camera_id with
      | some st => some [("entity_id", camera_id),
                         ("name", st.friendly_name.getD camera_id)]
      | none => none), ?_, ?_, ?_⟩
  · unfold CamPassStatusView_get
    rw [get_entry_and_verify_ok_of hass slug entry secret h1 h2]
    simp [h3]
  · intro c hc
    rw [List.mem_filterMap] at hc
    obtain ⟨cid, hcid, hf⟩ := hc
    cases hst : hass.states.lookup cid with
    | none => rw [hst] at hf; exact Option.noConfusion hf
    | some st =>
      rw [hst] at hf
      injection hf with hf
      exact ⟨cid, hcid, st, hst, hf.symm⟩
  · intro cid hcid st hst
    rw [List.mem_filterMap]
    exact ⟨cid, hcid, by rw [hst]⟩

/-- Witness for C7 (amended): the garage camera's rendered object is in the
status body returned to a valid viewer. -/
theorem status_view_body_amended_witness :
    [("entity_id", "camera.garage"), ("name", "Garage Cam")]
      ∈ (CamPassStatusView_get hassMain reqGarageCookie "garage" 1).camerasOf := by
  obtain ⟨cams, hc, -, hcomplete⟩ :=
    status_view_body_amended hassMain reqGarageCookie "garage" 1 entryGarage "kg"
      rfl rfl (by decide)
  have hm := hcomplete "camera.garage" (by decide)
    { state := "idle", friendly_name := some "Garage Cam" } rfl
  rw [hc]
  exact hm

/-- C7 counterexample: the status body renders the garage camera with key
`"entity_id"` — its object has no `"id"` field — and omits `camera.ghost`
entirely (an allowed camera with no state object), contradicting the claim's
`{id, name}` shape for each allowed camera. -/
theorem status_body_uses_entity_id_key :
    CamPassStatusView_get hassMain reqGarageCookie "garage" 1
      = .statusBody true [[("entity_id", "camera.garage"), ("name", "Garage Cam")]] ∧
    (([("entity_id", "camera.garage"), ("name", "Garage Cam")] :
        List (String × String)).lookup "id" = none) ∧
    "camera.ghost" ∈ entryGarage.data.cameras := by
  refine ⟨by decide, rfl, by decide⟩

/-- Lookup after an association-list update finds the updated value. -/
theorem lookup_updateAssoc (store : DomainStore) (k : String) (v : Option String) :
    (updateAssoc store k v).lookup k = some v := by
  induction store with
  | nil => simp [updateAssoc, List.lookup]
  | cons p rest ih =>
    obtain ⟨k', v'⟩ := p
    by_cases hk : (k' == k) = true
    · simp [updateAssoc, hk, List.lookup]
    · have hkk : (k == k') = false := by
        rw [beq_eq_false_iff_ne]
        intro he
        subst he
        exact hk (by simp)
      simp [updateAssoc, hk, List.lookup, hkk, ih]

/-- C8 (amended): `async_setup_entry` generates the signing secret only when
absent — while an entry stays loaded its secret is never replaced — and a
first setup stores the freshly generated secret; unloading the entry discards
the per-entry data, so a later re-setup generates a new secret. -/
theorem signing_secret_stable_while_loaded (store : DomainStore)
    (entry_id fresh : String) :
    (∀ s, store.lookup entry_id = some (some s) →
      async_setup_entry_data store entry_id fresh = store) ∧
    (store.lookup entry_id = none →
      (async_setup_entry_data store entry_id fresh).lookup entry_id
        = some (some fresh)) := by
  constructor
  · intro s h
    unfold async_setup_entry_data
    simp only [h]
  · intro h
    unfold async_setup_entry_data
    simp only [h]
    exact lookup_updateAssoc store entry_id (some fresh)

/-- Witness for C8 (amended): a loaded entry keeps its secret across a
re-setup; a first setup stores the fresh secret. -/
theorem signing_secret_stable_while_loaded_witness :
    async_setup_entry_data [("e1", some "kA")] "e1" "kB" = [("e1", some "kA")] ∧
    (async_setup_entry_data [] "e1" "kB").lookup "e1" = some (some "kB") :=
  ⟨(signing_secret_stable_while_loaded [("e1", some "kA")] "e1" "kB").1 "kA" rfl,
   (signing_secret_stable_while_loaded [] "e1" "kB").2 rfl⟩

/-- C8 counterexample: setting up, unloading, and re-setting-up the same entry
within one process run replaces the signing secret, and a credential issued
under the original secret no longer verifies. -/
theorem secret_regenerated_after_reload :
    (async_setup_entry_data
        (async_unload_entry_data (async_setup_entry_data [] "e1" "secretA") "e1" true)
        "e1" "secretB").lookup "e1" = some (some "secretB") ∧
    (("secretA" : String) == "secretB") = false ∧
    verify_jwt_token (create_jwt_token "garage" "secretA" 0 (some 86400)) "garage"
      "secretB" 1 = false ∧
    verify_jwt_token (create_jwt_token "garage" "secretA" 0 (some 86400)) "garage"
      "secretA" 1 = true := by
  decide

/-- C9: whenever the snapshot-polling handler exits — snapshot failure,
connection reset, or cancellation — the write sequence it performed contains
the stream terminator exactly once, as its last write. -/
theorem stream_poll_finalizes_once (events : List PollEvent)
    (writes : List StreamWrite)
    (h : CamPassStreamView_poll events = some writes) :
    writes.count StreamWrite.eof = 1 ∧ writes.getLast? = some StreamWrite.eof := by
  induction events generalizing writes with
  | nil => exact Option.noConfusion h
  | cons ev rest ih =>
    cases ev with
    | frame c =>
      unfold CamPassStreamView_poll at h
      cases hr : CamPassStreamView_poll rest with
      | none => rw [hr] at h; exact Option.noConfusion h
      | some ws =>
        rw [hr] at h
        injection h with h
        subst h
        obtain ⟨hcount, hlast⟩ := ih ws hr
        constructor
        · simp [List.count_cons, hcount]
        · cases ws with
          | nil => exact Option.noConfusion hlast
          | cons w ws' => simpa [List.getLast?_cons_cons] using hlast
    | snapshotError =>
      unfold CamPassStreamView_poll at h
      injection h with h
      subst h
      exact ⟨rfl, rfl⟩
    | connectionReset =>
      unfold CamPassStreamView_poll at h
      injection h with h
      subst h
      exact ⟨rfl, rfl⟩
    | cancelled =>
      unfold CamPassStreamView_poll at h
      injection h with h
      subst h
      exact ⟨rfl, rfl⟩

/-- Witness for C9: one streamed frame followed by a snapshot failure yields
one frame part and one terminating eof. -/
theorem stream_poll_finalizes_once_witness :
    ([StreamWrite.framePart "a", StreamWrite.eof] : List StreamWrite).count
        StreamWrite.eof = 1 ∧
    ([StreamWrite.framePart "a", StreamWrite.eof] : List StreamWrite).getLast?
      = some StreamWrite.eof :=
  stream_poll_finalizes_once [PollEvent.frame "a", PollEvent.snapshotError]
    [StreamWrite.framePart "a", StreamWrite.eof] rfl

end Campass
